import Mathlib

/-!
Shallow embedding of the IS31FL3733 "simple" LED driver
(`drivers/led/issi/is31fl3733-simple.c`).

Modelling conventions:

* Machine bytes are `Nat`; every value the C code stores is a `uint8_t`,
  so no arithmetic here overflows 8 bits except where the C truncates
  (`&= ~(1 << b)`), which is written with an explicit 8-bit mask.
* The I2C transport (`i2c_transmit`) is an oracle `Nat → Bool` giving the
  success of the n-th transmit performed since the start of the run; a
  `TxCtx` threads the oracle together with the running call counter.
  Every transmit is also recorded as a `TxEvent` (bus address and payload)
  so that theorems can count and inspect bus traffic.
* The build-time board configuration (`IS31FL3733_DRIVER_COUNT`,
  `LED_MATRIX_LED_COUNT`, the PROGMEM table `g_is31_leds`) is not part of
  the driver file; it is kept abstract as parameters `ledCount : Nat` and
  `leds : Nat → IsLed`.
* `IS31FL3733_I2C_PERSISTENCE` defaults to 0 and the board configuration
  does not override it, so the modelled `write_register` and
  `write_pwm_buffer` follow the `#else` (single-transmit) branches.
* The global mutable buffers (`g_pwm_buffer`, `g_pwm_buffer_update_required`,
  `g_led_control_registers`, `g_led_control_registers_update_required`)
  become a `Chip` record passed and returned explicitly.
-/

/-- One entry of the PROGMEM lookup table `g_is31_leds`: a physical LED
location, `driver` being the device index and `v` the PWM register offset. -/
structure IsLed where
  driver : Nat
  v : Nat
deriving DecidableEq, Repr

/-- The driver's global mutable state: per-device PWM shadow buffer
(`g_pwm_buffer`), PWM dirty flags (`g_pwm_buffer_update_required`),
control shadow buffer (`g_led_control_registers`), and control dirty flags
(`g_led_control_registers_update_required`).  Buffers are total functions
`device → offset → byte`; only indices below the configured driver count
and buffer sizes (192 and 24) are ever touched by the modelled code. -/
structure Chip where
  pwm : Nat → Nat → Nat
  pwmDirty : Nat → Bool
  ctrl : Nat → Nat → Nat
  ctrlDirty : Nat → Bool

/-- The zero-initialized startup state of the C globals. -/
def chip0 : Chip :=
  { pwm := fun _ _ => 0
  , pwmDirty := fun _ => false
  , ctrl := fun _ _ => 0
  , ctrlDirty := fun _ => false }

/-- An observed `i2c_transmit` call: the bus address byte passed to the
transport (the device address shifted left by one) and the transmitted
payload bytes. -/
structure TxEvent where
  addr : Nat
  payload : List Nat
deriving DecidableEq, Repr

/-- Transport context: the success oracle for the n-th transmit of the run
and the number of transmits performed so far. -/
structure TxCtx where
  tr : Nat → Bool
  calls : Nat

/-- Result of an operation that talks to the bus and returns a `bool`. -/
structure RegResult where
  ok : Bool
  ctx : TxCtx
  events : List TxEvent

/-- Register constant `IS31FL3733_COMMANDREGISTER` (0xFD). -/
def COMMANDREGISTER : Nat := 0xFD

/-- Register constant `IS31FL3733_COMMANDREGISTER_WRITELOCK` (0xFE). -/
def COMMANDREGISTER_WRITELOCK : Nat := 0xFE

/-- Page constant `IS31FL3733_PAGE_LEDCONTROL` (PG0). -/
def PAGE_LEDCONTROL : Nat := 0x00

/-- Page constant `IS31FL3733_PAGE_PWM` (PG1). -/
def PAGE_PWM : Nat := 0x01

/-- `is31fl3733_write_register(addr, reg, data)`: one 2-byte transmit to
`addr << 1`; returns the transmit's success (persistence 0 branch). -/
def writeRegister (c : TxCtx) (addr reg data : Nat) : RegResult :=
  { ok := c.tr c.calls
  , ctx := { c with calls := c.calls + 1 }
  , events := [⟨2 * addr, [reg, data]⟩] }

/-- The 17-byte payload of one PWM chunk transfer: the starting register
offset `i` followed by `pwm_buffer[i] .. pwm_buffer[i+15]`
(the `memcpy` into `g_twi_transfer_buffer + 1`). -/
def chunkPayload (pwm : Nat → Nat) (i : Nat) : List Nat :=
  i :: (List.range 16).map (fun j => pwm (i + j))

/-- The chunk starting offsets of the `for (int i = 0; i < 192; i += 16)`
loop: 0, 16, ..., 176. -/
def pwmChunkStarts : List Nat := (List.range 12).map (fun k => 16 * k)

/-- The loop body of `is31fl3733_write_pwm_buffer` over the remaining chunk
starting offsets: transmit each 17-byte chunk, returning `false` at the
first failed transmit without attempting the remaining chunks. -/
def writePwmBufferAux (addr : Nat) (pwm : Nat → Nat) :
    TxCtx → List Nat → RegResult
  | c, [] => { ok := true, ctx := c, events := [] }
  | c, i :: rest =>
    if c.tr c.calls then
      let r := writePwmBufferAux addr pwm { c with calls := c.calls + 1 } rest
      { r with events := ⟨2 * addr, chunkPayload pwm i⟩ :: r.events }
    else
      { ok := false
      , ctx := { c with calls := c.calls + 1 }
      , events := [⟨2 * addr, chunkPayload pwm i⟩] }

/-- `is31fl3733_write_pwm_buffer(addr, pwm_buffer)`: the 192-byte PWM page
in 12 transfers of 16 data bytes each (persistence 0 branch). -/
def writePwmBuffer (c : TxCtx) (addr : Nat) (pwm : Nat → Nat) : RegResult :=
  writePwmBufferAux addr pwm c pwmChunkStarts

/-- `is31fl3733_set_value(index, value)`: bounds-check the `int` index
against `LED_MATRIX_LED_COUNT`, look up the physical location, and store
`value` in the PWM shadow buffer, marking the device dirty only when the
stored value actually changes. -/
def setValue (leds : Nat → IsLed) (ledCount : Nat) (st : Chip)
    (index : Int) (value : Nat) : Chip :=
  if 0 ≤ index ∧ index < (ledCount : Int) then
    let led := leds index.toNat
    if st.pwm led.driver led.v = value then st
    else
      { st with
        pwm := fun d o =>
          if d = led.driver ∧ o = led.v then value else st.pwm d o
      , pwmDirty := fun d =>
          if d = led.driver then true else st.pwmDirty d }
  else st

/-- `is31fl3733_set_led_control_register(index, value)`: no bounds check
on the `uint8_t` index; sets or clears bit `v % 8` of control byte `v / 8`
and unconditionally marks the device's control buffer dirty.  The C
`&= ~(1 << bit)` truncates to 8 bits, written here as `&&& (255 ^^^ bit)`. -/
def setLedControlRegister (leds : Nat → IsLed) (st : Chip)
    (index : Nat) (value : Bool) : Chip :=
  let led := leds index
  let control_register := led.v / 8
  let bit_value := led.v % 8
  { st with
    ctrl := fun d cr =>
      if d = led.driver ∧ cr = control_register then
        (if value then st.ctrl d cr ||| (1 <<< bit_value)
         else st.ctrl d cr &&& (255 ^^^ (1 <<< bit_value)))
      else st.ctrl d cr
  , ctrlDirty := fun d =>
      if d = led.driver then true else st.ctrlDirty d }

/-- Result of a flush operation: the new chip state, the transport context,
the transmits performed, and (for the PWM flush) the outcome of the block
write — `none` when the dirty check skipped the body, `some b` when the
body ran and `is31fl3733_write_pwm_buffer` returned `b`.  The C functions
return `void`; `blockOk` is purely observational. -/
structure FlushResult where
  chip : Chip
  ctx : TxCtx
  events : List TxEvent
  blockOk : Option Bool

/-- `is31fl3733_update_pwm_buffers(addr, index)`: if the PWM dirty flag is
set, unlock, select PG1, block-write the PWM buffer; on block failure mark
the control buffer dirty (compensation); clear the PWM dirty flag
unconditionally. -/
def updatePwmBuffers (c : TxCtx) (st : Chip) (addr index : Nat) : FlushResult :=
  if st.pwmDirty index then
    let r1 := writeRegister c addr COMMANDREGISTER_WRITELOCK 0xC5
    let r2 := writeRegister r1.ctx addr COMMANDREGISTER PAGE_PWM
    let rb := writePwmBuffer r2.ctx addr (st.pwm index)
    let st1 :=
      if rb.ok then st
      else { st with ctrlDirty := fun d => if d = index then true else st.ctrlDirty d }
    { chip := { st1 with pwmDirty := fun d => if d = index then false else st1.pwmDirty d }
    , ctx := rb.ctx
    , events := r1.events ++ r2.events ++ rb.events
    , blockOk := some rb.ok }
  else
    { chip := st, ctx := c, events := [], blockOk := none }

/-- Result of the control flush: new chip state, transport context, and
the transmits performed. -/
structure CtrlResult where
  chip : Chip
  ctx : TxCtx
  events : List TxEvent

/-- The `for (int i = 0; i < 24; i++)` loop of
`is31fl3733_update_led_control_registers` over the remaining register
numbers: one `write_register` per byte, results discarded. -/
def writeCtrlLoop (addr : Nat) (buf : Nat → Nat) :
    TxCtx → List Nat → TxCtx × List TxEvent
  | c, [] => (c, [])
  | c, i :: rest =>
    let r := writeRegister c addr i (buf i)
    let rest' := writeCtrlLoop addr buf r.ctx rest
    (rest'.1, r.events ++ rest'.2)

/-- `is31fl3733_update_led_control_registers(addr, index)`: if the control
dirty flag is set, unlock, select PG0, write the 24 control registers
individually in ascending order, then clear the flag regardless of any
individual write failure. -/
def updateLedControlRegisters (c : TxCtx) (st : Chip) (addr index : Nat) :
    CtrlResult :=
  if st.ctrlDirty index then
    let r1 := writeRegister c addr COMMANDREGISTER_WRITELOCK 0xC5
    let r2 := writeRegister r1.ctx addr COMMANDREGISTER PAGE_LEDCONTROL
    let rl := writeCtrlLoop addr (st.ctrl index) r2.ctx (List.range 24)
    { chip := { st with ctrlDirty := fun d => if d = index then false else st.ctrlDirty d }
    , ctx := rl.1
    , events := r1.events ++ r2.events ++ rl.2 }
  else { chip := st, ctx := c, events := [] }

/-! ## Shared concrete fixtures for witnesses -/

/-- A transport context whose every transmit succeeds. -/
def ctxOk : TxCtx := ⟨fun _ => true, 0⟩

/-- A transport context whose every transmit fails. -/
def ctxFail : TxCtx := ⟨fun _ => false, 0⟩

/-- A chip state with every dirty flag raised (buffers still zero). -/
def allDirty : Chip :=
  { chip0 with pwmDirty := fun _ => true, ctrlDirty := fun _ => true }

/-- A one-LED lookup table mapping every index to device 0, offset 0. -/
def ledsA : Nat → IsLed := fun _ => ⟨0, 0⟩

/-! ## Theorems -/

/-- C2: if `is31fl3733_update_pwm_buffers` runs with the PWM dirty flag set
and the block write of the PWM buffer fails, then afterward the control
dirty flag of that device is true (compensating re-sync) and the PWM dirty
flag is false (cleared unconditionally). -/
theorem flushPwm_failure_sets_ctrl_dirty
    (c : TxCtx) (st : Chip) (addr index : Nat)
    (hd : st.pwmDirty index = true)
    (hf : (updatePwmBuffers c st addr index).blockOk = some false) :
    (updatePwmBuffers c st addr index).chip.ctrlDirty index = true ∧
    (updatePwmBuffers c st addr index).chip.pwmDirty index = false := by
  unfold updatePwmBuffers at hf ⊢
  rw [hd] at hf ⊢
  simp only [if_true] at hf ⊢
  simp only [Option.some.injEq] at hf
  simp [hf]

/-- C2 witness: concrete dirty device 0, always-failing transport. -/
theorem flushPwm_failure_sets_ctrl_dirty_witness :
    allDirty.pwmDirty 0 = true ∧
    (updatePwmBuffers ctxFail allDirty 0x50 0).blockOk = some false ∧
    ((updatePwmBuffers ctxFail allDirty 0x50 0).chip.ctrlDirty 0 = true ∧
     (updatePwmBuffers ctxFail allDirty 0x50 0).chip.pwmDirty 0 = false) :=
  ⟨rfl, rfl, flushPwm_failure_sets_ctrl_dirty ctxFail allDirty 0x50 0 rfl rfl⟩

/-- C3: after `is31fl3733_update_pwm_buffers` runs with an always-succeeding
transport the PWM dirty flag of that device is false; and when it is called
with the flag already false it returns immediately, leaving the state and
the transport untouched and performing zero transport calls. -/
theorem flushPwm_clears_flag_and_noop_when_clean
    (c : TxCtx) (st : Chip) (addr index : Nat) :
    ((∀ n, c.tr n = true) →
      (updatePwmBuffers c st addr index).chip.pwmDirty index = false) ∧
    (st.pwmDirty index = false →
      updatePwmBuffers c st addr index = ⟨st, c, [], none⟩) := by
  constructor
  · intro _
    unfold updatePwmBuffers
    by_cases hd : st.pwmDirty index <;> simp [hd]
  · intro hd
    unfold updatePwmBuffers
    simp [hd]

/-- C3 witness: flushing a clean chip with an always-succeeding transport. -/
theorem flushPwm_clears_flag_and_noop_when_clean_witness :
    (updatePwmBuffers ctxOk chip0 0x50 0).chip.pwmDirty 0 = false ∧
    updatePwmBuffers ctxOk chip0 0x50 0 = ⟨chip0, ctxOk, [], none⟩ :=
  ⟨(flushPwm_clears_flag_and_noop_when_clean ctxOk chip0 0x50 0).1 (fun _ => rfl),
   (flushPwm_clears_flag_and_noop_when_clean ctxOk chip0 0x50 0).2 rfl⟩

/-- Helper: for an in-range index, `setValue` leaves `value` stored at the
resolved physical location (whether or not it was already there). -/
theorem setValue_pwm_self (leds : Nat → IsLed) (ledCount : Nat) (st : Chip)
    (index : Int) (value : Nat)
    (h : 0 ≤ index ∧ index < (ledCount : Int)) :
    (setValue leds ledCount st index value).pwm
      (leds index.toNat).driver (leds index.toNat).v = value := by
  unfold setValue
  rw [if_pos h]
  by_cases he : st.pwm (leds index.toNat).driver (leds index.toNat).v = value
  · simp [he]
  · simp [he]

/-- Helper: for an in-range index whose resolved location already stores
`value`, `setValue` returns the state unchanged. -/
theorem setValue_already_stored (leds : Nat → IsLed) (ledCount : Nat)
    (st : Chip) (index : Int) (value : Nat)
    (h : 0 ≤ index ∧ index < (ledCount : Int))
    (he : st.pwm (leds index.toNat).driver (leds index.toNat).v = value) :
    setValue leds ledCount st index value = st := by
  unfold setValue
  rw [if_pos h]
  simp [he]

/-- C4: for every in-range logical index and byte value, `is31fl3733_set_value`
stores the value in the PWM shadow buffer at the physical location the
lookup table resolves the index to. -/
theorem setValue_stores_at_resolved_location (leds : Nat → IsLed)
    (ledCount : Nat) (st : Chip) (index : Int) (value : Nat)
    (h : 0 ≤ index ∧ index < (ledCount : Int)) :
    (setValue leds ledCount st index value).pwm
      (leds index.toNat).driver (leds index.toNat).v = value :=
  setValue_pwm_self leds ledCount st index value h

/-- C4 witness: storing 7 at logical index 0 of a one-LED table. -/
theorem setValue_stores_at_resolved_location_witness :
    (setValue ledsA 1 chip0 0 7).pwm 0 0 = 7 :=
  setValue_stores_at_resolved_location ledsA 1 chip0 0 7 (by decide)

/-- C5: `is31fl3733_set_value` is an idempotent no-op on unchanged values:
if the resolved location already stores the value the whole state is
returned unchanged (no buffer or dirty-flag change), and a second identical
call returns exactly the state the first call produced, so the second call
alone never raises the PWM dirty flag. -/
theorem setValue_idempotent (leds : Nat → IsLed) (ledCount : Nat)
    (st : Chip) (index : Int) (value : Nat)
    (h : 0 ≤ index ∧ index < (ledCount : Int)) :
    (st.pwm (leds index.toNat).driver (leds index.toNat).v = value →
      setValue leds ledCount st index value = st) ∧
    setValue leds ledCount (setValue leds ledCount st index value) index value
      = setValue leds ledCount st index value ∧
    ∀ d, (setValue leds ledCount (setValue leds ledCount st index value)
            index value).pwmDirty d
         = (setValue leds ledCount st index value).pwmDirty d := by
  refine ⟨setValue_already_stored leds ledCount st index value h, ?_, ?_⟩
  · exact setValue_already_stored leds ledCount
      (setValue leds ledCount st index value) index value h
      (setValue_pwm_self leds ledCount st index value h)
  · intro d
    rw [setValue_already_stored leds ledCount
      (setValue leds ledCount st index value) index value h
      (setValue_pwm_self leds ledCount st index value h)]

/-- C5 witness: repeated `setValue 0 7` on a one-LED table. -/
theorem setValue_idempotent_witness :
    ((setValue ledsA 1 chip0 0 0).pwm 0 0 = 0 →
      setValue ledsA 1 (setValue ledsA 1 chip0 0 0) 0 0
        = setValue ledsA 1 chip0 0 0) ∧
    setValue ledsA 1 (setValue ledsA 1 (setValue ledsA 1 chip0 0 0) 0 0) 0 0
      = setValue ledsA 1 (setValue ledsA 1 chip0 0 0) 0 0 ∧
    ∀ d, (setValue ledsA 1 (setValue ledsA 1 (setValue ledsA 1 chip0 0 0) 0 0)
            0 0).pwmDirty d
         = (setValue ledsA 1 (setValue ledsA 1 chip0 0 0) 0 0).pwmDirty d :=
  setValue_idempotent ledsA 1 (setValue ledsA 1 chip0 0 0) 0 0 (by decide)

/-- Helper: `setValue` skips its body when the index check fails. -/
theorem setValue_skip_out_of_range (leds : Nat → IsLed) (ledCount : Nat)
    (st : Chip) (index : Int) (value : Nat)
    (h : index < 0 ∨ (ledCount : Int) ≤ index) :
    setValue leds ledCount st index value = st := by
  unfold setValue
  rw [if_neg (by omega)]

/-- C6: `is31fl3733_set_value` with an out-of-range logical index is a
silent no-op: the entire chip state (both shadow buffers and both dirty
flags of every device) is returned unchanged. -/
theorem setValue_out_of_range_noop (leds : Nat → IsLed) (ledCount : Nat)
    (st : Chip) (index : Int) (value : Nat)
    (h : index < 0 ∨ (ledCount : Int) ≤ index) :
    setValue leds ledCount st index value = st :=
  setValue_skip_out_of_range leds ledCount st index value h

/-- C6 witness: index 5 with a one-LED table leaves the startup state. -/
theorem setValue_out_of_range_noop_witness :
    setValue ledsA 1 chip0 5 9 = chip0 :=
  setValue_out_of_range_noop ledsA 1 chip0 5 9 (by decide)

/-- Helper: each bit of the byte 255 below position 8 is set. -/
theorem testBit_255 (i : Nat) : Nat.testBit 255 i = decide (i < 8) := by
  have h := Nat.testBit_two_pow_sub_one 8 i
  norm_num at h
  exact h

/-- Helper: the control byte `setLedControlRegister` writes at the resolved
device and byte offset. -/
theorem setCtrl_ctrl_at (leds : Nat → IsLed) (st : Chip) (index : Nat)
    (enabled : Bool) :
    (setLedControlRegister leds st index enabled).ctrl
        (leds index).driver ((leds index).v / 8)
      = if enabled then
          st.ctrl (leds index).driver ((leds index).v / 8)
            ||| (1 <<< ((leds index).v % 8))
        else
          st.ctrl (leds index).driver ((leds index).v / 8)
            &&& (255 ^^^ (1 <<< ((leds index).v % 8))) := by
  unfold setLedControlRegister
  simp

/-- Helper: `setLedControlRegister` raises the resolved device's control
dirty flag. -/
theorem setCtrl_dirty (leds : Nat → IsLed) (st : Chip) (index : Nat)
    (enabled : Bool) :
    (setLedControlRegister leds st index enabled).ctrlDirty
      (leds index).driver = true := by
  unfold setLedControlRegister
  simp

/-- C7: `is31fl3733_set_led_control_register` sets (if enabled) or clears
(if not) exactly the bit at position `v % 8` of control byte `v / 8` of the
resolved device — every other bit of that byte, every other control byte,
and every other device are untouched — and unconditionally raises that
device's control dirty flag, so two consecutive enable calls each leave the
flag set. -/
theorem setControlRegister_bit_and_unconditional_dirty
    (leds : Nat → IsLed) (st : Chip) (index : Nat) (enabled : Bool)
    (hb : st.ctrl (leds index).driver ((leds index).v / 8) < 256) :
    (∀ b : Nat,
      ((setLedControlRegister leds st index enabled).ctrl
          (leds index).driver ((leds index).v / 8)).testBit b
        = if b = (leds index).v % 8 then enabled
          else (st.ctrl (leds index).driver ((leds index).v / 8)).testBit b) ∧
    (∀ d cr, ¬(d = (leds index).driver ∧ cr = (leds index).v / 8) →
      (setLedControlRegister leds st index enabled).ctrl d cr = st.ctrl d cr) ∧
    (setLedControlRegister leds st index enabled).ctrlDirty
      (leds index).driver = true ∧
    (setLedControlRegister leds
        (setLedControlRegister leds st index true) index true).ctrlDirty
      (leds index).driver = true := by
  refine ⟨?_, ?_, setCtrl_dirty leds st index enabled,
    setCtrl_dirty leds (setLedControlRegister leds st index true) index true⟩
  · intro b
    rw [setCtrl_ctrl_at]
    rcases enabled with _ | _
    · simp only [if_false, Bool.false_eq_true]
      by_cases hbit : b = (leds index).v % 8
      · subst hbit
        rw [if_pos rfl]
        simp [Nat.testBit_and, Nat.testBit_xor, Nat.shiftLeft_eq,
          Nat.testBit_two_pow, testBit_255, Nat.mod_lt _ (show 0 < 8 by norm_num)]
      · rw [if_neg hbit]
        by_cases hc : b < 8
        · simp [Nat.testBit_and, Nat.testBit_xor, Nat.shiftLeft_eq,
            Nat.testBit_two_pow, testBit_255, hc, Ne.symm hbit]
        · have hvc : (st.ctrl (leds index).driver ((leds index).v / 8)).testBit b
              = false :=
            Nat.testBit_lt_two_pow (lt_of_lt_of_le hb
              (Nat.pow_le_pow_right (show 0 < 2 by norm_num) (Nat.not_lt.mp hc)))
          simp [Nat.testBit_and, Nat.testBit_xor, Nat.shiftLeft_eq,
            Nat.testBit_two_pow, testBit_255, hvc, Ne.symm hbit, hc]
    · simp only [if_true]
      by_cases hbit : b = (leds index).v % 8
      · subst hbit
        rw [if_pos rfl]
        simp [Nat.testBit_or, Nat.shiftLeft_eq, Nat.testBit_two_pow]
      · rw [if_neg hbit]
        simp [Nat.testBit_or, Nat.shiftLeft_eq, Nat.testBit_two_pow, Ne.symm hbit]
  · intro d cr hne
    unfold setLedControlRegister
    simp only
    rw [if_neg hne]

/-- C7 witness: enabling logical index 0 twice on the one-LED table. -/
theorem setControlRegister_bit_and_unconditional_dirty_witness :
    chip0.ctrl 0 0 < 256 ∧
    ((∀ b : Nat,
      ((setLedControlRegister ledsA chip0 0 true).ctrl 0 0).testBit b
        = if b = 0 then true else (chip0.ctrl 0 0).testBit b) ∧
    (∀ d cr, ¬(d = 0 ∧ cr = 0) →
      (setLedControlRegister ledsA chip0 0 true).ctrl d cr = chip0.ctrl d cr) ∧
    (setLedControlRegister ledsA chip0 0 true).ctrlDirty 0 = true ∧
    (setLedControlRegister ledsA
        (setLedControlRegister ledsA chip0 0 true) 0 true).ctrlDirty 0 = true) :=
  ⟨by decide, setControlRegister_bit_and_unconditional_dirty ledsA chip0 0 true (by decide)⟩

/-- Helper: with an always-succeeding transport the chunk loop transmits
one chunk per starting offset, in list order, and reports success. -/
theorem writePwmBufferAux_all_ok (addr : Nat) (pwm : Nat → Nat) :
    ∀ (l : List Nat) (c : TxCtx), (∀ n, c.tr n = true) →
      writePwmBufferAux addr pwm c l
        = ⟨true, ⟨c.tr, c.calls + l.length⟩,
            l.map (fun i => ⟨2 * addr, chunkPayload pwm i⟩)⟩ := by
  intro l
  induction l with
  | nil => intro c h; simp [writePwmBufferAux]
  | cons i rest ih =>
    intro c h
    unfold writePwmBufferAux
    rw [h c.calls, if_pos rfl]
    rw [ih ⟨c.tr, c.calls + 1⟩ (fun n => h n)]
    simp
    omega

/-- Helper: if the transmits for the first `k` chunks succeed and the
`k`-th (0-based) fails, the chunk loop stops right there: it performs
exactly `k + 1` transmits, emits the first `k + 1` chunks, and reports
failure. -/
theorem writePwmBufferAux_fail (addr : Nat) (pwm : Nat → Nat) :
    ∀ (l : List Nat) (c : TxCtx) (k : Nat), k < l.length →
      (∀ j, j < k → c.tr (c.calls + j) = true) →
      c.tr (c.calls + k) = false →
      writePwmBufferAux addr pwm c l
        = ⟨false, ⟨c.tr, c.calls + k + 1⟩,
            (l.take (k + 1)).map (fun i => ⟨2 * addr, chunkPayload pwm i⟩)⟩ := by
  intro l
  induction l with
  | nil => intro c k hk _ _; simp at hk
  | cons i rest ih =>
    intro c k hk hj hf
    unfold writePwmBufferAux
    match k with
    | 0 =>
      have h0 : c.tr c.calls = false := by simpa using hf
      rw [h0]
      simp
    | k' + 1 =>
      have h0 : c.tr c.calls = true := by
        have := hj 0 (by omega)
        simpa using this
      rw [h0, if_pos rfl]
      rw [ih ⟨c.tr, c.calls + 1⟩ k' (by simpa using hk)
        (fun j hjk => by
          have := hj (j + 1) (by omega)
          simpa [Nat.add_assoc, Nat.add_comm 1 j] using this)
        (by
          have : c.calls + 1 + k' = c.calls + (k' + 1) := by omega
          rw [this]; exact hf)]
      simp
      omega

/-- Predicate on transmit events: a 17-byte PWM chunk transfer (register
offset byte plus 16 data bytes), as opposed to a 2-byte register write. -/
def isBlockWrite (e : TxEvent) : Bool := e.payload.length == 17

/-- C8: `is31fl3733_write_pwm_buffer` writes the 192-byte buffer as exactly
12 chunks of 16 data bytes, each transmission prefixed with its starting
offset 0, 16, ..., 176 in ascending order; it stops at the first failed
chunk without attempting the rest; and the concrete scenario
`set_value(0, 128)` then `update_pwm_buffers` with an always-succeeding
transport performs exactly 12 block-write transmits and leaves PWM shadow
byte 0 of device 0 holding 128. -/
theorem writeBlock_chunks_fail_fast_scenario :
    (∀ (c : TxCtx) (addr : Nat) (pwm : Nat → Nat), (∀ n, c.tr n = true) →
      writePwmBuffer c addr pwm
        = ⟨true, ⟨c.tr, c.calls + 12⟩,
            (List.range 12).map (fun k => ⟨2 * addr, chunkPayload pwm (16 * k)⟩)⟩) ∧
    (∀ (c : TxCtx) (addr : Nat) (pwm : Nat → Nat) (k : Nat), k < 12 →
      (∀ j, j < k → c.tr (c.calls + j) = true) →
      c.tr (c.calls + k) = false →
      writePwmBuffer c addr pwm
        = ⟨false, ⟨c.tr, c.calls + k + 1⟩,
            (List.range (k + 1)).map (fun j => ⟨2 * addr, chunkPayload pwm (16 * j)⟩)⟩) ∧
    (((updatePwmBuffers ctxOk (setValue ledsA 1 chip0 0 128) 80 0).events.countP
        isBlockWrite) = 12 ∧
     (updatePwmBuffers ctxOk (setValue ledsA 1 chip0 0 128) 80 0).chip.pwm 0 0 = 128) := by
  refine ⟨?_, ?_, by decide⟩
  · intro c addr pwm h
    unfold writePwmBuffer
    rw [writePwmBufferAux_all_ok addr pwm pwmChunkStarts c h]
    unfold pwmChunkStarts
    simp [List.map_map]
  · intro c addr pwm k hk hj hf
    unfold writePwmBuffer
    rw [writePwmBufferAux_fail addr pwm pwmChunkStarts c k
      (by simpa [pwmChunkStarts] using hk) hj hf]
    unfold pwmChunkStarts
    rw [← List.map_take, List.take_range, Nat.min_eq_left (by omega : k + 1 ≤ 12)]
    simp [List.map_map]

/-- C8 witness: a zero buffer under an always-succeeding transport yields
the 12 ascending chunks; under an always-failing transport the loop stops
after the very first chunk. -/
theorem writeBlock_chunks_fail_fast_scenario_witness :
    writePwmBuffer ctxOk 80 (fun _ => 0)
      = ⟨true, ⟨ctxOk.tr, 12⟩,
          (List.range 12).map (fun k => ⟨160, chunkPayload (fun _ => 0) (16 * k)⟩)⟩ ∧
    writePwmBuffer ctxFail 80 (fun _ => 0)
      = ⟨false, ⟨ctxFail.tr, 1⟩,
          (List.range 1).map (fun j => ⟨160, chunkPayload (fun _ => 0) (16 * j)⟩)⟩ :=
  ⟨writeBlock_chunks_fail_fast_scenario.1 ctxOk 80 (fun _ => 0) (fun _ => rfl),
   writeBlock_chunks_fail_fast_scenario.2.1 ctxFail 80 (fun _ => 0) 0 (by omega)
     (fun j hj => absurd hj (by omega)) rfl⟩

/-- Helper: the 24-register loop performs one 2-byte transmit per listed
register, in list order, whatever the transport answers. -/
theorem writeCtrlLoop_spec (addr : Nat) (buf : Nat → Nat) :
    ∀ (l : List Nat) (c : TxCtx),
      writeCtrlLoop addr buf c l
        = (⟨c.tr, c.calls + l.length⟩,
           l.map (fun i => ⟨2 * addr, [i, buf i]⟩)) := by
  intro l
  induction l with
  | nil => intro c; simp [writeCtrlLoop]
  | cons i rest ih =>
    intro c
    unfold writeCtrlLoop
    simp [writeRegister, ih]
    omega

/-- Predicate on transmit events: a write of one of the 24 control-page
data registers (register number below 24), as opposed to the unlock or
page-select writes. -/
def isDataWrite (e : TxEvent) : Bool :=
  match e.payload with
  | r :: _ => decide (r < 24)
  | [] => false

/-- A two-device lookup table mapping every index to device 1, offset 0. -/
def ledsB : Nat → IsLed := fun _ => ⟨1, 0⟩

/-- C9: `is31fl3733_update_led_control_registers` returns immediately with
zero transmits when the control dirty flag is clear; when it is set it
unlocks, selects the control page, writes the 24 control registers in
ascending order (whatever the transport answers), and clears the flag; in
the two-device scenario where only device 1's control buffer was mutated,
flushing device 0 performs zero transmits and flushing device 1 performs
exactly 24 data-register writes. -/
theorem flushControl_skip_write_order_scenario
    (c : TxCtx) (st : Chip) (addr index : Nat) :
    (st.ctrlDirty index = false →
      updateLedControlRegisters c st addr index = ⟨st, c, []⟩) ∧
    (st.ctrlDirty index = true →
      (updateLedControlRegisters c st addr index).events
        = ⟨2 * addr, [COMMANDREGISTER_WRITELOCK, 0xC5]⟩ ::
          ⟨2 * addr, [COMMANDREGISTER, PAGE_LEDCONTROL]⟩ ::
          (List.range 24).map (fun i => ⟨2 * addr, [i, st.ctrl index i]⟩) ∧
      (updateLedControlRegisters c st addr index).chip.ctrlDirty index = false ∧
      (updateLedControlRegisters c st addr index).ctx.calls = c.calls + 26) ∧
    ((updateLedControlRegisters ctxOk
        (setLedControlRegister ledsB chip0 0 true) 80 0).events = [] ∧
     ((updateLedControlRegisters ctxOk
        (setLedControlRegister ledsB chip0 0 true) 81 1).events.countP
          isDataWrite) = 24) := by
  refine ⟨?_, ?_, by decide⟩
  · intro hd
    unfold updateLedControlRegisters
    simp [hd]
  · intro hd
    unfold updateLedControlRegisters
    rw [hd, if_pos rfl]
    simp [writeRegister, writeCtrlLoop_spec addr (st.ctrl index) (List.range 24)]

/-- C9 witness: a clean device flushes to nothing; a dirty device's flag is
cleared by the flush. -/
theorem flushControl_skip_write_order_scenario_witness :
    updateLedControlRegisters ctxOk chip0 80 0 = ⟨chip0, ctxOk, []⟩ ∧
    (updateLedControlRegisters ctxOk allDirty 80 0).chip.ctrlDirty 0 = false :=
  ⟨(flushControl_skip_write_order_scenario ctxOk chip0 80 0).1 rfl,
   ((flushControl_skip_write_order_scenario ctxOk allDirty 80 0).2.1 rfl).2.1⟩

/-- The bounds check of `is31fl3733_set_value` recast as an `Option`-valued
table lookup: `some` entry for an index below `LED_MATRIX_LED_COUNT`,
`none` (the error branch) otherwise.  `is31fl3733_set_led_control_register`
performs no such check. -/
def ledLookup (ledCount : Nat) (leds : Nat → IsLed) (index : Nat) :
    Option IsLed :=
  if index < ledCount then some (leds index) else none

/-- C10: unlike `is31fl3733_set_value`, `is31fl3733_set_led_control_register`
performs no range validation: at any index at or beyond the LED count —
where the `Option` lookup takes its error branch — it still reads the table
entry, sets the addressed control bit, and raises the device's control
dirty flag, while `is31fl3733_set_value` at the same index leaves the state
untouched. -/
theorem setControlRegister_no_range_check
    (leds : Nat → IsLed) (ledCount : Nat) (st : Chip) (index : Nat)
    (value : Nat) (h : ledCount ≤ index) :
    ledLookup ledCount leds index = none ∧
    (setLedControlRegister leds st index true).ctrl
        (leds index).driver ((leds index).v / 8)
      = st.ctrl (leds index).driver ((leds index).v / 8)
          ||| (1 <<< ((leds index).v % 8)) ∧
    (setLedControlRegister leds st index true).ctrlDirty
      (leds index).driver = true ∧
    setValue leds ledCount st (index : Int) value = st := by
  refine ⟨?_, ?_, setCtrl_dirty leds st index true, ?_⟩
  · unfold ledLookup
    rw [if_neg (by omega)]
  · rw [setCtrl_ctrl_at]
    simp
  · exact setValue_skip_out_of_range leds ledCount st index value (by omega)

/-- C10 witness: index 3 of a one-LED table. -/
theorem setControlRegister_no_range_check_witness :
    ledLookup 1 ledsA 3 = none ∧
    (setLedControlRegister ledsA chip0 3 true).ctrl 0 0
      = chip0.ctrl 0 0 ||| (1 <<< 0) ∧
    (setLedControlRegister ledsA chip0 3 true).ctrlDirty 0 = true ∧
    setValue ledsA 1 chip0 3 5 = chip0 :=
  setControlRegister_no_range_check ledsA 1 chip0 3 5 (by omega)

/-- A caller-visible operation on the driver: the mutation API and the two
flush entry points. -/
inductive Op where
  | setVal (index : Int) (value : Nat)
  | setCtrl (index : Nat) (value : Bool)
  | flushPwm (addr index : Nat)
  | flushCtrl (addr index : Nat)

/-- A run state: the chip shadow state and transport context evolved by the
embedded code, together with ghost observations that the C code does not
store: `snapPwm`/`snapCtrl` record each device's buffer contents at its
most recent attempted flush (initially the zeroed startup contents), and
`hwPwm` records the last PWM page contents confirmed written to hardware,
i.e. updated only when a flush's full block write succeeds. -/
structure World where
  chip : Chip
  ctx : TxCtx
  snapPwm : Nat → Nat → Nat
  snapCtrl : Nat → Nat → Nat
  hwPwm : Nat → Nat → Nat

/-- One step of a run: the chip and transport evolve exactly as the
corresponding C function dictates; the ghost fields evolve as described in
`World`. -/
def runOp (leds : Nat → IsLed) (ledCount : Nat) (w : World) : Op → World
  | .setVal index value =>
    { w with chip := setValue leds ledCount w.chip index value }
  | .setCtrl index value =>
    { w with chip := setLedControlRegister leds w.chip index value }
  | .flushPwm addr index =>
    let r := updatePwmBuffers w.ctx w.chip addr index
    { chip := r.chip
    , ctx := r.ctx
    , snapPwm :=
        match r.blockOk with
        | none => w.snapPwm
        | some _ => fun d => if d = index then w.chip.pwm index else w.snapPwm d
    , snapCtrl := w.snapCtrl
    , hwPwm :=
        match r.blockOk with
        | some true => fun d => if d = index then w.chip.pwm index else w.hwPwm d
        | _ => w.hwPwm }
  | .flushCtrl addr index =>
    let r := updateLedControlRegisters w.ctx w.chip addr index
    { chip := r.chip
    , ctx := r.ctx
    , snapPwm := w.snapPwm
    , snapCtrl :=
        if w.chip.ctrlDirty index then
          fun d => if d = index then w.chip.ctrl index else w.snapCtrl d
        else w.snapCtrl
    , hwPwm := w.hwPwm }

/-- A whole run: fold the step function over an operation list. -/
def runOps (leds : Nat → IsLed) (ledCount : Nat) (w : World) (ops : List Op) :
    World :=
  ops.foldl (runOp leds ledCount) w

/-- The startup run state for a given transport oracle: zeroed buffers and
flags, zero transmits performed, ghost fields matching the zeroed state. -/
def world0 (tr : Nat → Bool) : World :=
  { chip := chip0
  , ctx := ⟨tr, 0⟩
  , snapPwm := fun _ _ => 0
  , snapCtrl := fun _ _ => 0
  , hwPwm := fun _ _ => 0 }

/-- The dirty flags are conservative with respect to the last attempted
flush: whenever a device's flag is clear, its shadow buffer agrees with
that buffer's contents at the device's most recent attempted flush. -/
def DirtyConservative (w : World) : Prop :=
  ∀ d, (w.chip.pwmDirty d = false → ∀ o, w.chip.pwm d o = w.snapPwm d o) ∧
       (w.chip.ctrlDirty d = false → ∀ o, w.chip.ctrl d o = w.snapCtrl d o)


/-- Helper: the PWM flush with the dirty flag clear is a complete no-op. -/
theorem updatePwm_clean (c : TxCtx) (st : Chip) (addr index : Nat)
    (hd : st.pwmDirty index = false) :
    updatePwmBuffers c st addr index = ⟨st, c, [], none⟩ := by
  unfold updatePwmBuffers
  simp [hd]

/-- Helper: the control flush with the dirty flag clear is a complete
no-op. -/
theorem updateCtrl_clean (c : TxCtx) (st : Chip) (addr index : Nat)
    (hd : st.ctrlDirty index = false) :
    updateLedControlRegisters c st addr index = ⟨st, c, []⟩ := by
  unfold updateLedControlRegisters
  simp [hd]

/-- Helper: how the PWM flush with the dirty flag set transforms the chip
state — buffers untouched, the device's PWM flag cleared, and the control
flags raised at the device exactly when the block write failed. -/
theorem updatePwm_dirty_char (c : TxCtx) (st : Chip) (addr index : Nat)
    (hd : st.pwmDirty index = true) :
    (updatePwmBuffers c st addr index).chip.pwm = st.pwm ∧
    (updatePwmBuffers c st addr index).chip.ctrl = st.ctrl ∧
    (∀ d, (updatePwmBuffers c st addr index).chip.pwmDirty d
      = if d = index then false else st.pwmDirty d) ∧
    (∃ b, (updatePwmBuffers c st addr index).blockOk = some b ∧
      ∀ d, (updatePwmBuffers c st addr index).chip.ctrlDirty d
        = if b then st.ctrlDirty d
          else (if d = index then true else st.ctrlDirty d)) := by
  unfold updatePwmBuffers
  rw [hd, if_pos rfl]
  simp only [writeRegister]
  by_cases hok : (writePwmBuffer
      { tr := c.tr, calls := c.calls + 1 + 1 } addr (st.pwm index)).ok
  · refine ⟨?_, ?_, ?_, true, ?_, ?_⟩ <;> simp [hok]
  · rw [Bool.not_eq_true] at hok
    refine ⟨?_, ?_, ?_, false, ?_, ?_⟩ <;> simp [hok]

/-- Helper: how the control flush with the dirty flag set transforms the
chip state — buffers and PWM flags untouched, the device's control flag
cleared. -/
theorem updateCtrl_dirty_char (c : TxCtx) (st : Chip) (addr index : Nat)
    (hd : st.ctrlDirty index = true) :
    (updateLedControlRegisters c st addr index).chip.pwm = st.pwm ∧
    (updateLedControlRegisters c st addr index).chip.ctrl = st.ctrl ∧
    (updateLedControlRegisters c st addr index).chip.pwmDirty = st.pwmDirty ∧
    (∀ d, (updateLedControlRegisters c st addr index).chip.ctrlDirty d
      = if d = index then false else st.ctrlDirty d) := by
  unfold updateLedControlRegisters
  rw [hd, if_pos rfl]
  exact ⟨rfl, rfl, rfl, fun d => rfl⟩

/-- Helper: `setValue` never touches the control buffer or control flags. -/
theorem setValue_ctrl_frame (leds : Nat → IsLed) (ledCount : Nat) (st : Chip)
    (index : Int) (value : Nat) :
    (setValue leds ledCount st index value).ctrl = st.ctrl ∧
    (setValue leds ledCount st index value).ctrlDirty = st.ctrlDirty := by
  unfold setValue
  by_cases h1 : 0 ≤ index ∧ index < (ledCount : Int)
  · rw [if_pos h1]
    by_cases h2 : st.pwm (leds index.toNat).driver (leds index.toNat).v = value
    · rw [if_pos h2]; exact ⟨rfl, rfl⟩
    · rw [if_neg h2]; exact ⟨rfl, rfl⟩
  · rw [if_neg h1]; exact ⟨rfl, rfl⟩

/-- Helper: a device whose PWM dirty flag is still clear after `setValue`
had a clear flag before and an untouched PWM row. -/
theorem setValue_dirty_false (leds : Nat → IsLed) (ledCount : Nat) (st : Chip)
    (index : Int) (value : Nat) (d : Nat)
    (hd : (setValue leds ledCount st index value).pwmDirty d = false) :
    st.pwmDirty d = false ∧
    (setValue leds ledCount st index value).pwm d = st.pwm d := by
  unfold setValue at hd ⊢
  by_cases h1 : 0 ≤ index ∧ index < (ledCount : Int)
  · rw [if_pos h1] at hd ⊢
    by_cases h2 : st.pwm (leds index.toNat).driver (leds index.toNat).v = value
    · rw [if_pos h2] at hd ⊢; exact ⟨hd, rfl⟩
    · rw [if_neg h2] at hd ⊢
      simp only at hd
      by_cases hdd : d = (leds index.toNat).driver
      · rw [if_pos hdd] at hd; exact absurd hd (by simp)
      · rw [if_neg hdd] at hd
        refine ⟨hd, ?_⟩
        funext o
        simp only
        rw [if_neg (fun hc => hdd hc.1)]
  · rw [if_neg h1] at hd ⊢; exact ⟨hd, rfl⟩

/-- Helper: `setLedControlRegister` never touches the PWM buffer or PWM
flags. -/
theorem setCtrl_pwm_frame (leds : Nat → IsLed) (st : Chip) (index : Nat)
    (value : Bool) :
    (setLedControlRegister leds st index value).pwm = st.pwm ∧
    (setLedControlRegister leds st index value).pwmDirty = st.pwmDirty :=
  ⟨rfl, rfl⟩

/-- Helper: a device whose control dirty flag is still clear after
`setLedControlRegister` had a clear flag before and an untouched control
row. -/
theorem setCtrl_dirty_false (leds : Nat → IsLed) (st : Chip) (index : Nat)
    (value : Bool) (d : Nat)
    (hd : (setLedControlRegister leds st index value).ctrlDirty d = false) :
    st.ctrlDirty d = false ∧
    (setLedControlRegister leds st index value).ctrl d = st.ctrl d := by
  unfold setLedControlRegister at hd ⊢
  simp only at hd ⊢
  by_cases hdd : d = (leds index).driver
  · rw [if_pos hdd] at hd; exact absurd hd (by simp)
  · rw [if_neg hdd] at hd
    refine ⟨hd, ?_⟩
    funext cr
    rw [if_neg (fun hc => hdd hc.1)]

/-- Helper: one step preserves the attempted-flush conservativeness of the
dirty flags. -/
theorem runOp_preserves_conservative (leds : Nat → IsLed) (ledCount : Nat)
    (w : World) (op : Op) (h : DirtyConservative w) :
    DirtyConservative (runOp leds ledCount w op) := by
  cases op with
  | setVal index value =>
    intro d
    simp only [runOp]
    constructor
    · intro hd o
      obtain ⟨h1, h2⟩ := setValue_dirty_false leds ledCount w.chip index value d hd
      rw [h2]
      exact (h d).1 h1 o
    · intro hd o
      obtain ⟨hc, hcd⟩ := setValue_ctrl_frame leds ledCount w.chip index value
      rw [hcd] at hd
      rw [hc]
      exact (h d).2 hd o
  | setCtrl index value =>
    intro d
    simp only [runOp]
    constructor
    · intro hd o
      exact (h d).1 hd o
    · intro hd o
      obtain ⟨h1, h2⟩ := setCtrl_dirty_false leds w.chip index value d hd
      rw [h2]
      exact (h d).2 h1 o
  | flushPwm addr index =>
    intro d
    simp only [runOp]
    by_cases hd : w.chip.pwmDirty index
    · obtain ⟨hpwm, hctrl, hpd, b, hb, hcd⟩ :=
        updatePwm_dirty_char w.ctx w.chip addr index hd
      rw [hb, hpwm, hctrl]
      constructor
      · intro hfd o
        rw [hpd d] at hfd
        by_cases hdd : d = index
        · subst hdd
          show w.chip.pwm d o = (if d = d then w.chip.pwm d else w.snapPwm d) o
          rw [if_pos rfl]
        · rw [if_neg hdd] at hfd
          show w.chip.pwm d o = (if d = index then w.chip.pwm index else w.snapPwm d) o
          rw [if_neg hdd]
          exact (h d).1 hfd o
      · intro hfd o
        rw [hcd d] at hfd
        cases b with
        | true =>
          rw [if_pos rfl] at hfd
          exact (h d).2 hfd o
        | false =>
          rw [if_neg (by simp)] at hfd
          by_cases hdd : d = index
          · rw [if_pos hdd] at hfd
            exact absurd hfd (by simp)
          · rw [if_neg hdd] at hfd
            exact (h d).2 hfd o
    · rw [updatePwm_clean w.ctx w.chip addr index (by simpa using hd)]
      exact h d
  | flushCtrl addr index =>
    intro d
    simp only [runOp]
    by_cases hd : w.chip.ctrlDirty index
    · obtain ⟨hpwm, hctrl, hpd, hcd⟩ :=
        updateCtrl_dirty_char w.ctx w.chip addr index hd
      rw [hpwm, hctrl, hpd, if_pos hd]
      constructor
      · intro hfd o
        exact (h d).1 hfd o
      · intro hfd o
        rw [hcd d] at hfd
        by_cases hdd : d = index
        · subst hdd
          show w.chip.ctrl d o = (if d = d then w.chip.ctrl d else w.snapCtrl d) o
          rw [if_pos rfl]
        · rw [if_neg hdd] at hfd
          show w.chip.ctrl d o = (if d = index then w.chip.ctrl index else w.snapCtrl d) o
          rw [if_neg hdd]
          exact (h d).2 hfd o
    · rw [updateCtrl_clean w.ctx w.chip addr index (by simpa using hd), if_neg hd]
      exact h d

/-- Helper: every run from a conservative state stays conservative. -/
theorem runOps_preserves_conservative (leds : Nat → IsLed) (ledCount : Nat) :
    ∀ (ops : List Op) (w : World), DirtyConservative w →
      DirtyConservative (runOps leds ledCount w ops) := by
  intro ops
  induction ops with
  | nil => intro w h; exact h
  | cons op rest ih =>
    intro w h
    exact ih _ (runOp_preserves_conservative leds ledCount w op h)

/-- C1 (amended): after any sequence of mutation and flush operations from
startup, each device's dirty flag is true whenever its shadow buffer
differs from that buffer's contents at the device's most recent attempted
flush (initially the zeroed startup contents) — not from the last state
confirmed written to hardware: a flush whose transport write fails still
clears the flag (a failed PWM block write instead raises the control dirty
flag). -/
theorem dirtyFlags_conservative_wrt_attempted_flush
    (leds : Nat → IsLed) (ledCount : Nat) (tr : Nat → Bool) (ops : List Op) :
    DirtyConservative (runOps leds ledCount (world0 tr) ops) :=
  runOps_preserves_conservative leds ledCount ops (world0 tr)
    (fun _ => ⟨fun _ _ => rfl, fun _ _ => rfl⟩)

/-- C1 amended-claim witness: the invariant at a concrete two-operation
run under an always-failing transport. -/
theorem dirtyFlags_conservative_wrt_attempted_flush_witness :
    DirtyConservative (runOps ledsA 1 (world0 (fun _ => false))
      [Op.setVal 0 128, Op.flushPwm 80 0]) :=
  dirtyFlags_conservative_wrt_attempted_flush ledsA 1 (fun _ => false)
    [Op.setVal 0 128, Op.flushPwm 80 0]

/-- C1 counterexample: the claim's invariant relative to the last state
confirmed written to hardware is false on a reachable state.  After
`set_value(0, 128)` and a PWM flush whose block write fails (no transmit
succeeds, so nothing was confirmed written), the shadow PWM byte (128)
differs from the confirmed hardware contents (0), yet the PWM dirty flag
has been cleared. -/
theorem pwmDirty_not_conservative_vs_confirmed_hw :
    ¬ (∀ d,
      (∃ o, (runOps ledsA 1 (world0 (fun _ => false))
          [Op.setVal 0 128, Op.flushPwm 80 0]).chip.pwm d o
        ≠ (runOps ledsA 1 (world0 (fun _ => false))
          [Op.setVal 0 128, Op.flushPwm 80 0]).hwPwm d o) →
      (runOps ledsA 1 (world0 (fun _ => false))
          [Op.setVal 0 128, Op.flushPwm 80 0]).chip.pwmDirty d = true) := by
  intro hclaim
  have h := hclaim 0 ⟨0, by decide⟩
  have h3 : (runOps ledsA 1 (world0 (fun _ => false))
      [Op.setVal 0 128, Op.flushPwm 80 0]).chip.pwmDirty 0 = false := by decide
  rw [h3] at h
  exact Bool.false_ne_true h
